import Mathlib

/-!
Shallow embedding of `src/App.js` (multi-user chat component) and proofs of
its specified properties.

Timestamps are modelled as `Nat` (milliseconds); the Firestore `Timestamp`
object carried by a snapshot document is `Option Nat` (`none` = the server
timestamp of an in-flight write has not been assigned yet, which is falsy in
the JS condition `doc.data().createdAt ? ... : new Date()`), and
`Timestamp.toDate` is the identity on the underlying instant.
-/

namespace MultiUserChat

/-- Value written into the `createdAt` field of an appended document:
either the Firestore `serverTimestamp()` sentinel (store assigns the time at
write), or a locally generated client-clock value (never used by the code). -/
inductive TimestampField where
  | serverTimestamp
  | clientTime (t : Nat)
deriving DecidableEq, Repr

/-- The document passed to `addDoc` in `handleSendMessage` (App.js lines
134-138): `{ text: newMessage, uid: userId, createdAt: serverTimestamp() }`. -/
structure WriteDoc where
  text : String
  uid : String
  createdAt : TimestampField
deriving DecidableEq, Repr

/-- A document as delivered by a Firestore snapshot: `doc.id` plus the data
fields the app wrote. `createdAt = none` models a pending server timestamp. -/
structure StoreDoc where
  id : String
  text : String
  uid : String
  createdAt : Option Nat
deriving DecidableEq, Repr

/-- The view-model record produced by the snapshot mapping (App.js lines
104-109): `{ ...doc.data(), id: doc.id, createdAt: <Date> }`. -/
structure Message where
  id : String
  text : String
  uid : String
  createdAt : Nat
deriving DecidableEq, Repr

/-- The component's state hooks (App.js lines 10-20): `db`/`auth` handles
(modelled as a readiness flag), `userId`, `messages`, `newMessage`,
`loading`, `darkMode`. -/
structure AppState where
  dbReady : Bool
  userId : Option String
  messages : List Message
  newMessage : String
  loading : Bool
  darkMode : Bool
deriving DecidableEq, Repr

/-- State before the first effect runs (the `useState` initial values). -/
def initialState : AppState :=
  { dbReady := false, userId := none, messages := [], newMessage := ""
    loading := true, darkMode := false }

/-! ### Session bootstrap (App.js lines 53-89, `setupFirebase`) -/

/-- Outcome of the startup effect's asynchronous part: either
`onAuthStateChanged` fires with a user, or it fires with `null` (the code
substitutes `crypto.randomUUID()`), or initialization / sign-in throws and
the `catch` block runs.  `dbWasSet` records whether `setDb` had already run
when the exception was thrown (it is on line 60, before the sign-in awaits). -/
inductive AuthOutcome where
  | signedIn (uid : String)
  | noUser (freshUuid : String)
  | setupError (dbWasSet : Bool) (e : String)
deriving DecidableEq, Repr

/-- State transition performed by `setupFirebase` for each startup outcome:
the `onAuthStateChanged` callback sets `userId` and `setLoading(false)` in
both branches (lines 72-80); the `catch` block only logs and runs
`setLoading(false)` (lines 82-85), leaving `userId` untouched. -/
def setupFirebase (st : AppState) : AuthOutcome → AppState
  | .signedIn uid => { st with dbReady := true, userId := some uid, loading := false }
  | .noUser freshUuid => { st with dbReady := true, userId := some freshUuid, loading := false }
  | .setupError dbWasSet _ => { st with dbReady := dbWasSet, loading := false }

/-! ### Live feed subscription (App.js lines 92-118) -/

/-- A Firestore query: collection path plus optional `orderBy` field. -/
structure Query where
  collectionPath : String
  orderByField : Option String
deriving DecidableEq, Repr

/-- The collection path used for both the subscription and the writes
(lines 96 and 134). -/
def chatCollectionPath (appId : String) : String :=
  "/artifacts/" ++ appId ++ "/public/data/chatMessages"

/-- The query built on line 100: `query(messagesCollection, orderBy('createdAt'))`. -/
def messagesQuery (appId : String) : Query :=
  { collectionPath := chatCollectionPath appId, orderByField := some "createdAt" }

/-- The guard on line 94: `if (db && userId)` — the subscription effect body
only proceeds when both the Firestore handle and the user id are set. -/
def subscriptionGuard (dbReady : Bool) (userId : Option String) : Bool :=
  dbReady && userId.isSome

/-- The per-document mapping inside the snapshot callback (lines 104-109):
spread the data, take `id` from `doc.id`, and convert `createdAt` with
`doc.data().createdAt ? doc.data().createdAt.toDate() : new Date()` —
`now` is the instant `new Date()` would observe. -/
def mapSnapshotDoc (now : Nat) (d : StoreDoc) : Message :=
  { id := d.id, text := d.text, uid := d.uid
    createdAt := d.createdAt.getD now }

/-- The snapshot success callback (lines 103-110): build `fetchedMessages`
and `setMessages(fetchedMessages)` — a wholesale replacement of the list. -/
def onSnapshotNext (st : AppState) (now : Nat) (docs : List StoreDoc) : AppState :=
  { st with messages := docs.map (mapSnapshotDoc now) }

/-- The snapshot error callback (lines 111-113): `console.error(...)` only.
Returns the (unchanged) state together with the console output produced. -/
def onSnapshotError (st : AppState) (e : String) : AppState × List String :=
  (st, ["Error fetching messages: " ++ e])

/-! ### Composer (App.js lines 126-145, `handleSendMessage`) -/

/-- Result of the awaited `addDoc` call: resolves or rejects. -/
inductive WriteOutcome where
  | success
  | failure (e : String)
deriving DecidableEq, Repr

/-- Model of JS `String.prototype.trim()`: strip leading and trailing
whitespace characters. -/
def jsTrim (s : String) : String :=
  ⟨((s.data.dropWhile Char.isWhitespace).reverse.dropWhile Char.isWhitespace).reverse⟩

/-- `handleSendMessage`: guard `if (newMessage.trim() === '' || !db || !userId)
return;` then `addDoc` with `{ text: newMessage, uid: userId, createdAt:
serverTimestamp() }`; on resolve `setNewMessage('')`, on reject only
`console.error`.  Returns the new state, the document handed to `addDoc`
(`none` when the guard returned early and no write was attempted), and the
console output. -/
def handleSendMessage (st : AppState) (outcome : WriteOutcome) :
    AppState × Option WriteDoc × List String :=
  if jsTrim st.newMessage = "" ∨ st.dbReady = false ∨ st.userId = none then
    (st, none, [])
  else
    match st.userId with
    | none => (st, none, [])
    | some u =>
      let req : WriteDoc :=
        { text := st.newMessage, uid := u, createdAt := .serverTimestamp }
      match outcome with
      | .success => ({ st with newMessage := "" }, some req, [])
      | .failure e => (st, some req, ["Error sending message: " ++ e])

/-! ### Thread renderer (App.js lines 153-224) -/

/-- Model of `Date.prototype.toLocaleTimeString` on our timestamps. -/
def toLocaleTimeString (t : Nat) : String :=
  toString t

/-- What the JSX emits for one message (lines 190-216): row direction
(`flex-row-reverse` vs `flex-row`), own-bubble styling (`bg-indigo-500
text-white ...` vs `bg-white ...`), the author label rendered only when
`msg.uid !== userId`, the body text, and the formatted time. -/
structure RenderedMessage where
  key : String
  rightAligned : Bool
  ownBubbleStyle : Bool
  authorLabel : Option String
  body : String
  timeText : String
deriving DecidableEq, Repr

/-- Rendering of a single message: every `msg.uid === userId` comparison in
the JSX, with `userId` possibly `null`. -/
def renderMessage (userId : Option String) (m : Message) : RenderedMessage :=
  { key := m.id
    rightAligned := userId == some m.uid
    ownBubbleStyle := userId == some m.uid
    authorLabel := if userId == some m.uid then none else some m.uid
    body := m.text
    timeText := toLocaleTimeString m.createdAt }

/-- The message list area (lines 189-221): `messages.length > 0 ?
messages.map(...) : <placeholder>`. -/
inductive ThreadView where
  | placeholder
  | thread (items : List RenderedMessage)
deriving DecidableEq, Repr

/-- Render the thread in exactly the stored list order (`messages.map`). -/
def renderThread (userId : Option String) (messages : List Message) : ThreadView :=
  if messages.length > 0 then
    .thread (messages.map (renderMessage userId))
  else
    .placeholder

/-- Top-level render (lines 153-246): the loading screen when `loading` is
set, otherwise the main chat UI. -/
inductive AppView where
  | loadingScreen
  | mainScreen (thread : ThreadView)
deriving DecidableEq, Repr

def renderApp (st : AppState) : AppView :=
  if st.loading then .loadingScreen
  else .mainScreen (renderThread st.userId st.messages)

/-! ### Subscription lifecycle (App.js lines 92-118)

The subscription `useEffect` opens one `onSnapshot` listener when its guard
passes and returns `() => unsubscribe()` as cleanup; React runs the effect
body on mount and the returned cleanup on unmount (or dependency change),
strictly alternating.  The machine below counts listener registrations and
`unsubscribe` calls along such an event trace. -/

/-- One framework-driven event: the effect body runs with the given `db` /
`userId` state, or the previously returned cleanup runs. -/
inductive EffectEvent where
  | mount (dbReady : Bool) (userId : Option String)
  | unmount
deriving DecidableEq, Repr

/-- Bookkeeping for the listener opened on line 103 and the `unsubscribe`
call on line 116: number of currently live listeners, whether the current
cycle's effect opened one (so its cleanup closure captured it), and running
totals. -/
structure SubscriptionState where
  active : Nat
  openedThisCycle : Bool
  totalOpened : Nat
  totalCancelled : Nat
deriving DecidableEq, Repr

def initSubscriptionState : SubscriptionState :=
  { active := 0, openedThisCycle := false, totalOpened := 0, totalCancelled := 0 }

/-- Effect semantics: on mount, open exactly one listener iff the guard
`db && userId` passes (lines 94 and 103); on unmount, run the cleanup, which
calls `unsubscribe()` exactly once iff this cycle opened a listener
(line 116 — the cleanup is only returned inside the `if`). -/
def effectStep (s : SubscriptionState) : EffectEvent → SubscriptionState
  | .mount dbReady userId =>
    if subscriptionGuard dbReady userId then
      { s with active := s.active + 1, openedThisCycle := true
               totalOpened := s.totalOpened + 1 }
    else
      { s with openedThisCycle := false }
  | .unmount =>
    if s.openedThisCycle then
      { s with active := s.active - 1, openedThisCycle := false
               totalCancelled := s.totalCancelled + 1 }
    else
      s

def runTrace (s : SubscriptionState) : List EffectEvent → SubscriptionState
  | [] => s
  | e :: rest => runTrace (effectStep s e) rest

/-- Largest number of simultaneously live listeners at any point while the
trace runs (including the start and end). -/
def maxActiveAlong (s : SubscriptionState) : List EffectEvent → Nat
  | [] => s.active
  | e :: rest => max s.active (maxActiveAlong (effectStep s e) rest)

/-- React's effect contract: cleanups and effect bodies strictly alternate;
`mounted` says whether an effect body has run without its cleanup yet. -/
def wellFormedTrace : Bool → List EffectEvent → Bool
  | _, [] => true
  | false, .mount _ _ :: rest => wellFormedTrace true rest
  | true, .unmount :: rest => wellFormedTrace false rest
  | _, _ :: _ => false

/-- Whether the component is still mounted after the trace. -/
def traceEndMounted (mounted : Bool) : List EffectEvent → Bool
  | [] => mounted
  | .mount _ _ :: rest => traceEndMounted true rest
  | .unmount :: rest => traceEndMounted false rest

/-- Invariant tying the machine to the mount flag: an unmounted component
holds no pending cleanup; the live-listener count is exactly the pending
cleanup's holdings; every opened listener was either cancelled or is live. -/
def subInv (mounted : Bool) (s : SubscriptionState) : Prop :=
  (mounted = false → s.openedThisCycle = false) ∧
  s.active = (if s.openedThisCycle then 1 else 0) ∧
  s.totalOpened = s.totalCancelled + s.active

/-- A ready session state used as a concrete test fixture: backend handle
obtained, a signed-in uid, and the given composer input. -/
def readyState (uid text : String) : AppState :=
  { dbReady := true, userId := some uid, messages := [], newMessage := text
    loading := false, darkMode := false }

/-- A concrete three-cycle mount/unmount trace used as a test fixture: one
ready cycle, one not-ready cycle (guard fails, nothing opened), and a second
ready cycle after a session change. -/
def lifecycleTrace : List EffectEvent :=
  [.mount true (some "alice"), .unmount,
   .mount false none, .unmount,
   .mount true (some "bob"), .unmount]

/-! ## Helper lemmas -/

/-- When the guard on line 128 fires, `handleSendMessage` returns without
touching state, attempting a write, or logging. -/
theorem sendMessage_early_exit (st : AppState) (outcome : WriteOutcome)
    (h : jsTrim st.newMessage = "" ∨ st.dbReady = false ∨ st.userId = none) :
    handleSendMessage st outcome = (st, none, []) := by
  simp [handleSendMessage, h]

/-- When the guard passes, the document handed to `addDoc` is exactly
the raw `newMessage`, the session uid, and the server-timestamp sentinel. -/
theorem sendMessage_request (st : AppState) (outcome : WriteOutcome) (u : String)
    (ht : jsTrim st.newMessage ≠ "") (hd : st.dbReady = true) (hu : st.userId = some u) :
    (handleSendMessage st outcome).2.1 =
      some { text := st.newMessage, uid := u, createdAt := .serverTimestamp } := by
  cases outcome <;> simp [handleSendMessage, ht, hd, hu]

/-! ## Claim theorems -/

/-- C1: for every submitted message, the record appended to the store has its
author field (`uid`) set to the current session's `userId` and its
`createdAt` field set to the store-assigned server-timestamp sentinel; the
write never substitutes a locally generated client-clock timestamp. -/
theorem C1_write_author_and_server_timestamp (st : AppState) (outcome : WriteOutcome)
    (req : WriteDoc) (h : (handleSendMessage st outcome).2.1 = some req) :
    st.userId = some req.uid ∧
    req.createdAt = TimestampField.serverTimestamp ∧
    ∀ t, req.createdAt ≠ TimestampField.clientTime t := by
  by_cases hg : jsTrim st.newMessage = "" ∨ st.dbReady = false ∨ st.userId = none
  · rw [sendMessage_early_exit st outcome hg] at h
    exact absurd h (by simp)
  · push_neg at hg
    obtain ⟨ht, hd, hu⟩ := hg
    have hd2 : st.dbReady = true := by simpa using hd
    obtain ⟨u, huv⟩ := Option.ne_none_iff_exists'.mp hu
    rw [sendMessage_request st outcome u ht hd2 huv] at h
    injection h with hreq
    subst hreq
    exact ⟨huv, rfl, fun t hc => nomatch hc⟩

/-- Witness for C1 at a concrete state. -/
theorem C1_witness :
    (handleSendMessage (readyState "alice" " hi ") .success).2.1 =
      some { text := " hi ", uid := "alice", createdAt := .serverTimestamp } ∧
    (readyState "alice" " hi ").userId = some "alice" ∧
    (WriteDoc.createdAt { text := " hi ", uid := "alice", createdAt := .serverTimestamp })
      = TimestampField.serverTimestamp :=
  ⟨by decide,
   (C1_write_author_and_server_timestamp (readyState "alice" " hi ") .success
      { text := " hi ", uid := "alice", createdAt := .serverTimestamp } (by decide)).1,
   (C1_write_author_and_server_timestamp (readyState "alice" " hi ") .success
      { text := " hi ", uid := "alice", createdAt := .serverTimestamp } (by decide)).2.1⟩

/-- C3: for every input whose trimmed form is empty, submit performs no
store write and leaves all state unchanged (and logs nothing). -/
theorem C3_blank_input_is_noop (st : AppState) (outcome : WriteOutcome)
    (h : jsTrim st.newMessage = "") :
    handleSendMessage st outcome = (st, none, []) :=
  sendMessage_early_exit st outcome (Or.inl h)

/-- Witness for C3 on a whitespace-only input with a ready session. -/
theorem C3_witness :
    jsTrim (readyState "alice" "   ").newMessage = "" ∧
    handleSendMessage (readyState "alice" "   ") .success =
      (readyState "alice" "   ", none, []) :=
  ⟨by decide, C3_blank_input_is_noop (readyState "alice" "   ") .success (by decide)⟩

/-- C10: for every successful submit, the text stored is the raw input
string exactly as typed (leading/trailing whitespace included): the
non-empty check is applied to the trimmed string, but the untrimmed string
is written. -/
theorem C10_raw_text_written (st : AppState) (outcome : WriteOutcome) (u : String)
    (ht : jsTrim st.newMessage ≠ "") (hd : st.dbReady = true) (hu : st.userId = some u) :
    (handleSendMessage st outcome).2.1 =
      some { text := st.newMessage, uid := u, createdAt := .serverTimestamp } :=
  sendMessage_request st outcome u ht hd hu

/-- Witness for C10: the input has surrounding whitespace, the trimmed check
passes, and the written text keeps the whitespace. -/
theorem C10_witness :
    jsTrim "  hi  " ≠ "" ∧
    (handleSendMessage (readyState "alice" "  hi  ") .success).2.1 =
      some { text := "  hi  ", uid := "alice", createdAt := .serverTimestamp } :=
  ⟨by decide,
   C10_raw_text_written (readyState "alice" "  hi  ") .success "alice"
     (by decide) (by decide) (by decide)⟩

/-- C4: for every submit with non-empty trimmed input and ready session,
success empties the input buffer (and logs nothing), while failure leaves
the state exactly unchanged, reports the error, and still made only the one
write attempt (no retry, no queueing). -/
theorem C4_success_clears_failure_preserves (st : AppState) (u : String)
    (ht : jsTrim st.newMessage ≠ "") (hd : st.dbReady = true) (hu : st.userId = some u) :
    (handleSendMessage st .success).1 = { st with newMessage := "" } ∧
    (handleSendMessage st .success).2.2 = [] ∧
    ∀ e, (handleSendMessage st (.failure e)).1 = st ∧
      (handleSendMessage st (.failure e)).1.newMessage = st.newMessage ∧
      (handleSendMessage st (.failure e)).2.2 = ["Error sending message: " ++ e] ∧
      (handleSendMessage st (.failure e)).2.1 =
        some { text := st.newMessage, uid := u, createdAt := .serverTimestamp } := by
  refine ⟨?_, ?_, fun e => ⟨?_, ?_, ?_, ?_⟩⟩ <;> simp [handleSendMessage, ht, hd, hu]

/-- Witness for C4 at a concrete state, exercising both outcomes. -/
theorem C4_witness :
    jsTrim "hey" ≠ "" ∧
    (handleSendMessage (readyState "bob" "hey") .success).1 = readyState "bob" "" ∧
    (handleSendMessage (readyState "bob" "hey") (.failure "offline")).1 =
      readyState "bob" "hey" :=
  ⟨by decide,
   (C4_success_clears_failure_preserves (readyState "bob" "hey") "bob"
      (by decide) (by decide) (by decide)).1,
   ((C4_success_clears_failure_preserves (readyState "bob" "hey") "bob"
      (by decide) (by decide) (by decide)).2.2 "offline").1⟩

/-- C5: a rendered message gets the own-message presentation (right-aligned
row, own bubble colors, no author label) exactly when its `uid` equals the
session's `userId`; every other message is left-aligned and carries its
author's identity label. -/
theorem C5_own_message_presentation (userId : Option String) (m : Message) :
    ((renderMessage userId m).rightAligned = true ↔ userId = some m.uid) ∧
    ((renderMessage userId m).ownBubbleStyle = true ↔ userId = some m.uid) ∧
    ((renderMessage userId m).authorLabel = none ↔ userId = some m.uid) ∧
    ((renderMessage userId m).authorLabel = some m.uid ↔ userId ≠ some m.uid) ∧
    (renderMessage userId m).body = m.text ∧
    (renderMessage userId m).timeText = toLocaleTimeString m.createdAt := by
  by_cases h : userId = some m.uid <;>
    simp [renderMessage, h]

/-- Witness for C5: an own message and another user's message, rendered. -/
theorem C5_witness :
    (renderMessage (some "A") ⟨"m1", "hi", "A", 5⟩).rightAligned = true ∧
    (renderMessage (some "A") ⟨"m1", "hi", "A", 5⟩).authorLabel = none ∧
    (renderMessage (some "A") ⟨"m2", "yo", "B", 6⟩).rightAligned = false ∧
    (renderMessage (some "A") ⟨"m2", "yo", "B", 6⟩).authorLabel = some "B" :=
  ⟨(C5_own_message_presentation (some "A") ⟨"m1", "hi", "A", 5⟩).1.mpr rfl,
   (C5_own_message_presentation (some "A") ⟨"m1", "hi", "A", 5⟩).2.2.1.mpr rfl,
   by decide,
   (C5_own_message_presentation (some "A") ⟨"m2", "yo", "B", 6⟩).2.2.2.1.mpr
     (by decide)⟩

/-- C6: every snapshot delivery replaces the in-memory message list
wholesale with the snapshot's contents (empty snapshot included), each
record's store timestamp is kept when assigned and replaced by the current
time when still pending, and no other component state is touched. -/
theorem C6_snapshot_wholesale_replace (st : AppState) (now : Nat) (docs : List StoreDoc) :
    (onSnapshotNext st now docs).messages = docs.map (mapSnapshotDoc now) ∧
    (docs = [] → (onSnapshotNext st now docs).messages = []) ∧
    (∀ d t, d.createdAt = some t → (mapSnapshotDoc now d).createdAt = t) ∧
    (∀ d, d.createdAt = none → (mapSnapshotDoc now d).createdAt = now) ∧
    (onSnapshotNext st now docs).newMessage = st.newMessage ∧
    (onSnapshotNext st now docs).userId = st.userId ∧
    (onSnapshotNext st now docs).loading = st.loading := by
  refine ⟨rfl, ?_, ?_, ?_, rfl, rfl, rfl⟩
  · rintro rfl; rfl
  · intro d t ht; simp [mapSnapshotDoc, ht]
  · intro d hn; simp [mapSnapshotDoc, hn]

/-- Witness for C6: a two-document snapshot, one assigned timestamp and one
still pending, replacing a previously non-empty list. -/
theorem C6_witness :
    (mapSnapshotDoc 99 ⟨"d1", "a", "alice", some 5⟩).createdAt = 5 ∧
    (mapSnapshotDoc 99 ⟨"d2", "b", "bob", none⟩).createdAt = 99 ∧
    (onSnapshotNext (readyState "alice" "") 99
        [⟨"d1", "a", "alice", some 5⟩, ⟨"d2", "b", "bob", none⟩]).messages =
      [⟨"d1", "a", "alice", 5⟩, ⟨"d2", "b", "bob", 99⟩] ∧
    (onSnapshotNext (readyState "alice" "") 99 []).messages = [] :=
  ⟨(C6_snapshot_wholesale_replace (readyState "alice" "") 99 []).2.2.1
      ⟨"d1", "a", "alice", some 5⟩ 5 rfl,
   (C6_snapshot_wholesale_replace (readyState "alice" "") 99 []).2.2.2.1
      ⟨"d2", "b", "bob", none⟩ rfl,
   by decide,
   (C6_snapshot_wholesale_replace (readyState "alice" "") 99 []).2.1 rfl⟩

/-- C7: every startup outcome — signed in, no user, or a thrown
connection/auth error — resolves `loading` to `false` (the UI never stays on
the loading screen), and after a thrown error the session has no identity,
the UI shows the main (degraded) screen rather than the loading screen, and
the feed subscription guard refuses to open a subscription. -/
theorem C7_loading_resolves (st : AppState) (o : AuthOutcome) (dbWasSet : Bool) (e : String) :
    (setupFirebase st o).loading = false ∧
    (setupFirebase initialState (.setupError dbWasSet e)).userId = none ∧
    renderApp (setupFirebase initialState (.setupError dbWasSet e)) ≠ .loadingScreen ∧
    subscriptionGuard (setupFirebase initialState (.setupError dbWasSet e)).dbReady
      (setupFirebase initialState (.setupError dbWasSet e)).userId = false := by
  refine ⟨?_, rfl, ?_, ?_⟩
  · cases o <;> rfl
  · simp [renderApp, setupFirebase, renderThread, initialState]
  · cases dbWasSet <;> rfl

/-- Witness for C7 on a concrete failed startup. -/
theorem C7_witness :
    (setupFirebase initialState (.setupError true "network down")).loading = false ∧
    (setupFirebase initialState (.setupError true "network down")).userId = none ∧
    renderApp (setupFirebase initialState (.setupError true "network down")) ≠
      .loadingScreen ∧
    subscriptionGuard
        (setupFirebase initialState (.setupError true "network down")).dbReady
        (setupFirebase initialState (.setupError true "network down")).userId = false :=
  ⟨(C7_loading_resolves initialState (.setupError true "network down") true
      "network down").1,
   (C7_loading_resolves initialState (.setupError true "network down") true
      "network down").2.1,
   (C7_loading_resolves initialState (.setupError true "network down") true
      "network down").2.2.1,
   (C7_loading_resolves initialState (.setupError true "network down") true
      "network down").2.2.2⟩

/-- C8: a subscription delivery failure only logs; the message list and all
other application state are left unchanged. -/
theorem C8_subscription_error_keeps_state (st : AppState) (e : String) :
    (onSnapshotError st e).1 = st ∧
    (onSnapshotError st e).2 = ["Error fetching messages: " ++ e] :=
  ⟨rfl, rfl⟩

/-- C2: the client renders the messages of every snapshot in exactly the
order the snapshot returns them (document ids and rendered keys are the
snapshot's, in the snapshot's order — no client-side re-sorting); ascending
`createdAt` order comes solely from the subscription's query being ordered
by `createdAt`, so whenever the store delivers a list ascending in
`createdAt`, the rendered timestamps are ascending. -/
theorem C2_render_order_is_snapshot_order (appId : String) (userId : Option String)
    (st : AppState) (now : Nat) (docs : List StoreDoc) :
    (onSnapshotNext st now docs).messages.map Message.id = docs.map StoreDoc.id ∧
    (messagesQuery appId).orderByField = some "createdAt" ∧
    (docs ≠ [] →
      renderThread userId (onSnapshotNext st now docs).messages =
        .thread ((onSnapshotNext st now docs).messages.map (renderMessage userId))) ∧
    (((onSnapshotNext st now docs).messages.map (renderMessage userId)).map
        RenderedMessage.key = docs.map StoreDoc.id) ∧
    (docs.Pairwise (fun a b => a.createdAt.getD now ≤ b.createdAt.getD now) →
      ((onSnapshotNext st now docs).messages.map Message.createdAt).Pairwise (· ≤ ·)) := by
  refine ⟨?_, rfl, ?_, ?_, ?_⟩
  · show (docs.map (mapSnapshotDoc now)).map Message.id = docs.map StoreDoc.id
    rw [List.map_map]
    exact List.map_congr_left fun d _ => rfl
  · intro hne
    have hlen : 0 < (docs.map (mapSnapshotDoc now)).length := by
      simpa [List.length_pos] using hne
    show renderThread userId (docs.map (mapSnapshotDoc now)) = _
    rw [renderThread, if_pos hlen]
    rfl
  · show ((docs.map (mapSnapshotDoc now)).map (renderMessage userId)).map
        RenderedMessage.key = docs.map StoreDoc.id
    rw [List.map_map, List.map_map]
    exact List.map_congr_left fun d _ => rfl
  · intro hsorted
    show ((docs.map (mapSnapshotDoc now)).map Message.createdAt).Pairwise (· ≤ ·)
    rw [List.map_map, List.pairwise_map]
    exact hsorted.imp fun h => h

/-- Witness for C2: a snapshot of two documents with ascending assigned
timestamps, rendered in delivery order and ascending. -/
theorem C2_witness :
    (messagesQuery "default-app-id").orderByField = some "createdAt" ∧
    ([(⟨"d1", "a", "alice", some 5⟩ : StoreDoc), ⟨"d2", "b", "bob", some 9⟩] ≠
        ([] : List StoreDoc)) ∧
    renderThread (some "alice")
        (onSnapshotNext (readyState "alice" "") 99
          [⟨"d1", "a", "alice", some 5⟩, ⟨"d2", "b", "bob", some 9⟩]).messages =
      .thread ((onSnapshotNext (readyState "alice" "") 99
          [⟨"d1", "a", "alice", some 5⟩, ⟨"d2", "b", "bob", some 9⟩]).messages.map
        (renderMessage (some "alice"))) ∧
    ((onSnapshotNext (readyState "alice" "") 99
        [⟨"d1", "a", "alice", some 5⟩, ⟨"d2", "b", "bob", some 9⟩]).messages.map
      Message.createdAt).Pairwise (· ≤ ·) :=
  ⟨(C2_render_order_is_snapshot_order "default-app-id" (some "alice")
      (readyState "alice" "") 99
      [⟨"d1", "a", "alice", some 5⟩, ⟨"d2", "b", "bob", some 9⟩]).2.1,
   by decide,
   (C2_render_order_is_snapshot_order "default-app-id" (some "alice")
      (readyState "alice" "") 99
      [⟨"d1", "a", "alice", some 5⟩, ⟨"d2", "b", "bob", some 9⟩]).2.2.1 (by decide),
   (C2_render_order_is_snapshot_order "default-app-id" (some "alice")
      (readyState "alice" "") 99
      [⟨"d1", "a", "alice", some 5⟩, ⟨"d2", "b", "bob", some 9⟩]).2.2.2.2 (by decide)⟩

/-- The invariant bounds the live-listener count by one. -/
theorem subInv_active_le_one (mounted : Bool) (s : SubscriptionState)
    (h : subInv mounted s) : s.active ≤ 1 := by
  rw [h.2.1]
  split <;> simp

/-- Running the effect body on a mount preserves the invariant. -/
theorem subInv_mount (s : SubscriptionState) (dbReady : Bool) (userId : Option String)
    (h : subInv false s) : subInv true (effectStep s (.mount dbReady userId)) := by
  obtain ⟨h1, h2, h3⟩ := h
  have hop : s.openedThisCycle = false := h1 rfl
  rw [hop] at h2
  simp only [Bool.false_eq_true, if_false] at h2
  unfold subInv
  cases hg : subscriptionGuard dbReady userId
  · simp [effectStep, hg, hop]
    omega
  · simp [effectStep, hg]
    omega

/-- Running the cleanup on an unmount preserves the invariant. -/
theorem subInv_unmount (s : SubscriptionState) (h : subInv true s) :
    subInv false (effectStep s .unmount) := by
  obtain ⟨h1, h2, h3⟩ := h
  unfold subInv
  cases hop : s.openedThisCycle
  · rw [hop] at h2
    simp only [Bool.false_eq_true, if_false] at h2
    simp [effectStep, hop]
    omega
  · rw [hop] at h2
    simp only [if_true] at h2
    simp [effectStep, hop]
    omega

/-- Along any well-formed alternating mount/unmount trace, the invariant is
preserved and the live-listener count never exceeds one. -/
theorem runTrace_subInv (trace : List EffectEvent) :
    ∀ (mounted : Bool) (s : SubscriptionState),
      wellFormedTrace mounted trace = true → subInv mounted s →
      maxActiveAlong s trace ≤ 1 ∧
      subInv (traceEndMounted mounted trace) (runTrace s trace) := by
  induction trace with
  | nil =>
    intro mounted s _ hinv
    exact ⟨subInv_active_le_one mounted s hinv, hinv⟩
  | cons e rest ih =>
    intro mounted s hwf hinv
    cases e with
    | mount dbReady userId =>
      cases mounted with
      | false =>
        have hwf2 : wellFormedTrace true rest = true := hwf
        have hinv2 := subInv_mount s dbReady userId hinv
        obtain ⟨hmax, hend⟩ := ih true (effectStep s (.mount dbReady userId)) hwf2 hinv2
        refine ⟨?_, hend⟩
        simp only [maxActiveAlong, Nat.max_le]
        exact ⟨subInv_active_le_one false s hinv, hmax⟩
      | true => simp [wellFormedTrace] at hwf
    | unmount =>
      cases mounted with
      | true =>
        have hwf2 : wellFormedTrace false rest = true := hwf
        have hinv2 := subInv_unmount s hinv
        obtain ⟨hmax, hend⟩ := ih false (effectStep s .unmount) hwf2 hinv2
        refine ⟨?_, hend⟩
        simp only [maxActiveAlong, Nat.max_le]
        exact ⟨subInv_active_le_one true s hinv, hmax⟩
      | false => simp [wellFormedTrace] at hwf

/-- C9: along every well-formed sequence of mount/unmount cycles, at most
one feed subscription is ever live at a time; at every moment the
subscriptions opened so far are exactly the ones cancelled plus the live
one; and once the component ends unmounted, every subscription ever opened
has been cancelled exactly once and none is live (no duplicates, no leaks). -/
theorem C9_subscription_lifecycle (trace : List EffectEvent)
    (hwf : wellFormedTrace false trace = true) :
    maxActiveAlong initSubscriptionState trace ≤ 1 ∧
    (runTrace initSubscriptionState trace).totalOpened =
      (runTrace initSubscriptionState trace).totalCancelled +
        (runTrace initSubscriptionState trace).active ∧
    (traceEndMounted false trace = false →
      (runTrace initSubscriptionState trace).active = 0 ∧
      (runTrace initSubscriptionState trace).totalOpened =
        (runTrace initSubscriptionState trace).totalCancelled) := by
  have hinit : subInv false initSubscriptionState := ⟨fun _ => rfl, rfl, rfl⟩
  obtain ⟨hmax, hend⟩ := runTrace_subInv trace false initSubscriptionState hwf hinit
  obtain ⟨e1, e2, e3⟩ := hend
  refine ⟨hmax, e3, fun hq => ?_⟩
  rw [hq] at e1
  have hop := e1 rfl
  have hact : (runTrace initSubscriptionState trace).active = 0 := by
    rw [e2, hop]
    simp
  exact ⟨hact, by omega⟩

/-- Witness for C9 on the concrete three-cycle trace. -/
theorem C9_witness :
    wellFormedTrace false lifecycleTrace = true ∧
    maxActiveAlong initSubscriptionState lifecycleTrace ≤ 1 ∧
    traceEndMounted false lifecycleTrace = false ∧
    (runTrace initSubscriptionState lifecycleTrace).totalOpened =
      (runTrace initSubscriptionState lifecycleTrace).totalCancelled :=
  ⟨by decide,
   (C9_subscription_lifecycle lifecycleTrace (by decide)).1,
   by decide,
   ((C9_subscription_lifecycle lifecycleTrace (by decide)).2.2 (by decide)).2⟩

end MultiUserChat
